import Mathlib

/-!
Verification of the msm8610-common lights HAL (`liblight/lights.c`).

The C module is embedded shallowly: the two sysfs control files become a
trace of `(path, content)` writes, the process-wide snapshots
`g_notification`/`g_battery` become an explicit `Globals` record threaded
through the setters, and the kernel environment (whether `open`/`write`
succeed, and the current `errno`) becomes an explicit `Env` record.
-/

namespace Lights

/-- `struct light_state_t` from hardware/lights.h: a 32-bit ARGB color,
a flash mode, and the flash on/off durations in milliseconds. -/
structure light_state_t where
  color : Nat
  flashMode : Int
  flashOnMS : Int
  flashOffMS : Int
deriving DecidableEq, Repr

/-- `LIGHT_FLASH_NONE` from hardware/lights.h. -/
def LIGHT_FLASH_NONE : Int := 0

/-- `LIGHT_FLASH_TIMED` from hardware/lights.h. -/
def LIGHT_FLASH_TIMED : Int := 1

/-- The two process-wide state snapshots `g_notification` and `g_battery`. -/
structure Globals where
  g_notification : light_state_t
  g_battery : light_state_t
deriving DecidableEq, Repr

/-- Kernel environment: whether `open` succeeds on a path, whether `write`
succeeds on a path, and the current system error code `errno`. -/
structure Env where
  openOk : String → Bool
  writeOk : String → Bool
  errno : Nat

def LCD_FILE : String := "/sys/class/leds/lcd-backlight/brightness"

def RGB_CONTROL_FILE : String := "/sys/class/leds/rgb/control"

/-- A trace of control-file writes: `(path, bytes written)` pairs. -/
abbrev Writes := List (String × String)

/-- `write_int`: open the path; on success format `"%d\n"` and write it,
returning `-errno` if the write fails and `0` otherwise; on open failure
return `-errno` (after a once-per-process log we do not model). -/
def write_int (env : Env) (path : String) (value : Int) : Int × Writes :=
  if env.openOk path then
    let buffer := toString value ++ "\n"
    if env.writeOk path then (0, [(path, buffer)])
    else (-(env.errno : Int), [])
  else (-(env.errno : Int), [])

/-- `write_str`: open the path; on success format `"%s\n"` and write it,
returning `-errno` if the write fails and `0` otherwise; on open failure
return `-errno`. -/
def write_str (env : Env) (path : String) (value : String) : Int × Writes :=
  if env.openOk path then
    let buffer := value ++ "\n"
    if env.writeOk path then (0, [(path, buffer)])
    else (-(env.errno : Int), [])
  else (-(env.errno : Int), [])

/-- `is_lit`: `state->color & 0x00ffffff`, used as a C truth value
(non-zero means lit). -/
def is_lit (state : light_state_t) : Nat :=
  state.color &&& 0xffffff

/-- `rgb_to_brightness`: mask the color to 24 bits and combine the three
8-bit channels with the fixed-point weights 77/150/29, shifted down 8. -/
def rgb_to_brightness (state : light_state_t) : Nat :=
  let color := state.color &&& 0xffffff
  (77 * ((color >>> 16) &&& 0xff)
      + 150 * ((color >>> 8) &&& 0xff) + 29 * (color &&& 0xff)) >>> 8

/-- `set_light_backlight`: compute the brightness and write it (as a
decimal integer) to the LCD file, propagating the write result. -/
def set_light_backlight (env : Env) (state : light_state_t) : Int × Writes :=
  let brightness := rgb_to_brightness state
  write_int env LCD_FILE (Int.ofNat brightness)

/-- One digit of `sprintf %x` output (lowercase hex). -/
def hexDigit (n : Nat) : Char :=
  if n < 10 then Char.ofNat (48 + n) else Char.ofNat (87 + n)

/-- Digits of `sprintf %x` (lowercase, most significant first); fuel-based
so that it reduces by kernel evaluation (32 digits of fuel suffice for any
value the module ever formats). -/
def toHexCore : Nat → Nat → List Char
  | 0, _ => []
  | fuel + 1, n =>
    if n < 16 then [hexDigit n]
    else toHexCore fuel (n / 16) ++ [hexDigit (n % 16)]

/-- `sprintf %x` of an unsigned value. -/
def toHex (n : Nat) : String := String.mk (toHexCore 32 n)

/-- The width-6 space padding of `sprintf %6x`. -/
def pad6 (s : String) : String :=
  if s.length < 6 then String.mk (List.replicate (6 - s.length) ' ') ++ s else s

/-- `set_speaker_light_locked`: pick on/off/ramp from the flash mode
(TIMED uses the state durations and ramp 300; NONE and every other mode
use all zeros), collapse the 24-bit color to binary white, format
`"%6x %d %d %d %d"` and write it to the RGB control file, ignoring the
write result and returning 0. -/
def set_speaker_light_locked (env : Env) (state : light_state_t) : Int × Writes :=
  let onMS : Int := if state.flashMode = LIGHT_FLASH_TIMED then state.flashOnMS else 0
  let offMS : Int := if state.flashMode = LIGHT_FLASH_TIMED then state.flashOffMS else 0
  let ramp : Int := if state.flashMode = LIGHT_FLASH_TIMED then 300 else 0
  let colorRGB : Nat := if 0xffffff &&& state.color ≠ 0 then 0xFFFFFF else 0
  let blink_pattern : String :=
    pad6 (toHex colorRGB) ++ " " ++ toString onMS ++ " " ++ toString offMS
      ++ " " ++ toString ramp ++ " " ++ toString ramp
  let r := write_str env RGB_CONTROL_FILE blink_pattern
  (0, r.2)

/-- `handle_speaker_battery_locked`: notification snapshot first; if it is
lit, show it; else if the battery snapshot is lit, write the fixed solid
white pattern; else write the fixed all-off pattern. -/
def handle_speaker_battery_locked (env : Env) (g : Globals) : Writes :=
  if is_lit g.g_notification ≠ 0 then
    (set_speaker_light_locked env g.g_notification).2
  else if is_lit g.g_battery ≠ 0 then
    (write_str env RGB_CONTROL_FILE "FFFFFF 1 0 0 0").2
  else
    (write_str env RGB_CONTROL_FILE "000000 0 0 0 0").2

/-- `set_light_notifications`: under the lock, store the snapshot, run the
arbitration, and return 0. Result is `(return code, new globals, writes)`. -/
def set_light_notifications (env : Env) (g : Globals) (state : light_state_t) :
    Int × Globals × Writes :=
  let g2 : Globals := { g with g_notification := state }
  (0, g2, handle_speaker_battery_locked env g2)

/-- `set_light_battery`: under the lock, store the snapshot, run the
arbitration, and return 0. -/
def set_light_battery (env : Env) (g : Globals) (state : light_state_t) :
    Int × Globals × Writes :=
  let g2 : Globals := { g with g_battery := state }
  (0, g2, handle_speaker_battery_locked env g2)

/-- `LIGHT_ID_BACKLIGHT` from hardware/lights.h. -/
def LIGHT_ID_BACKLIGHT : String := "backlight"

/-- `LIGHT_ID_BATTERY` from hardware/lights.h. -/
def LIGHT_ID_BATTERY : String := "battery"

/-- `LIGHT_ID_NOTIFICATIONS` from hardware/lights.h. -/
def LIGHT_ID_NOTIFICATIONS : String := "notifications"

/-- `EINVAL` (invalid argument) from errno.h. -/
def EINVAL : Int := 22

/-- Which setter a device handle is bound to. -/
inductive Setter where
  | backlight
  | battery
  | notifications
deriving DecidableEq, Repr

/-- `open_lights`: match the name against the three recognized identifiers
and bind the corresponding setter; return `-EINVAL` (and leave the caller
device pointer unwritten, modelled by `Except.error`) otherwise. -/
def open_lights (name : String) : Except Int Setter :=
  if name = LIGHT_ID_BACKLIGHT then Except.ok Setter.backlight
  else if name = LIGHT_ID_BATTERY then Except.ok Setter.battery
  else if name = LIGHT_ID_NOTIFICATIONS then Except.ok Setter.notifications
  else Except.error (-EINVAL)

/-! Concrete fixtures used by counterexamples and witnesses. -/

/-- An environment in which every control-file open and write succeeds. -/
def envOK : Env := ⟨fun _ => true, fun _ => true, 5⟩

/-- An environment in which every control-file open fails with errno 5. -/
def envFail : Env := ⟨fun _ => false, fun _ => false, 5⟩

/-- An all-zero light state. -/
def zeroState : light_state_t := ⟨0, 0, 0, 0⟩

/-- Both snapshots all zero. -/
def zeroGlobals : Globals := ⟨zeroState, zeroState⟩

/-! Bridge lemmas between the bitwise operations of the C source and the
arithmetic form used by the specification. -/

lemma land_mask24 (n : Nat) : n &&& 0xffffff = n % 16777216 := by
  have h := Nat.and_pow_two_sub_one_eq_mod n 24
  norm_num at h
  exact h

lemma land_mask8 (n : Nat) : n &&& 0xff = n % 256 := by
  have h := Nat.and_pow_two_sub_one_eq_mod n 8
  norm_num at h
  exact h

/-- The brightness computation, rephrased over the arithmetic channel
extractions the specification uses. -/
lemma rgb_to_brightness_spec (s : light_state_t) :
    rgb_to_brightness s =
      (77 * (s.color / 65536 % 256) + 150 * (s.color / 256 % 256)
        + 29 * (s.color % 256)) / 256 := by
  unfold rgb_to_brightness
  simp only [Nat.shiftRight_eq_div_pow, land_mask24, land_mask8]
  norm_num
  omega

/-- C2 counterexample: with every open failing (errno 5), the battery and
notification setters still return 0, not the negated error code, refuting
the claim that all three setters propagate `-errno`. -/
theorem C2_counterexample :
    (set_light_battery envFail zeroGlobals ⟨0x00FF0000, 0, 0, 0⟩).1 = 0 ∧
    (set_light_notifications envFail zeroGlobals ⟨0x00FF0000, 0, 0, 0⟩).1 = 0 ∧
    (0 : Int) ≠ -(envFail.errno : Int) := by
  decide

/-- C2 amended: when opening a control file fails, only the backlight
setter returns the negated system error code; the battery and notification
setters swallow the failure and return 0. -/
theorem C2_amended_error_codes (env : Env) (g : Globals) (s : light_state_t)
    (h : env.openOk LCD_FILE = false) :
    (set_light_backlight env s).1 = -(env.errno : Int) ∧
    (set_light_battery env g s).1 = 0 ∧
    (set_light_notifications env g s).1 = 0 := by
  refine ⟨?_, rfl, rfl⟩
  unfold set_light_backlight write_int
  simp [h]

/-- C2 amended witness at a concrete failing environment and state. -/
theorem C2_amended_error_codes_witness :
    (set_light_backlight envFail zeroState).1 = -(envFail.errno : Int) ∧
    (set_light_battery envFail zeroGlobals zeroState).1 = 0 ∧
    (set_light_notifications envFail zeroGlobals zeroState).1 = 0 :=
  C2_amended_error_codes envFail zeroGlobals zeroState rfl

/-- C4 counterexample: the luminance conversion applied to pure red
0x00FF0000 yields 76, not 77 as the claim states (77*255 >> 8 = 76). -/
theorem C4_counterexample :
    rgb_to_brightness ⟨0x00FF0000, 0, 0, 0⟩ ≠ 77 ∧
    rgb_to_brightness ⟨0x00FF0000, 0, 0, 0⟩ = 76 := by
  decide

/-- C4 amended: the luminance conversion applied to color 0x00FF0000
(pure red) yields brightness 76. -/
theorem C4_amended_pure_red_brightness :
    rgb_to_brightness ⟨0x00FF0000, 0, 0, 0⟩ = 76 := by
  decide

/-- C6 counterexample: with an unlit notification snapshot and a battery
snapshot whose color 0x01000000 is non-zero (alpha bits only), the
arbitration routine writes the all-off pattern, not the solid-white
pattern the claim requires for every non-zero battery color. -/
theorem C6_counterexample :
    (⟨zeroState, ⟨0x01000000, 0, 0, 0⟩⟩ : Globals).g_battery.color ≠ 0 ∧
    is_lit (⟨zeroState, ⟨0x01000000, 0, 0, 0⟩⟩ : Globals).g_notification = 0 ∧
    handle_speaker_battery_locked envOK ⟨zeroState, ⟨0x01000000, 0, 0, 0⟩⟩
      = [(RGB_CONTROL_FILE, "000000 0 0 0 0\n")] ∧
    handle_speaker_battery_locked envOK ⟨zeroState, ⟨0x01000000, 0, 0, 0⟩⟩
      ≠ [(RGB_CONTROL_FILE, "FFFFFF 1 0 0 0\n")] := by
  decide

/-- C6 amended: with an unlit notification snapshot, if the battery
snapshot is lit (non-zero low 24 color bits) the arbitration routine
writes the fixed solid-white always-on pattern, and if the battery
snapshot is unlit it writes the fixed all-off pattern. -/
theorem C6_amended_battery_fallback (env : Env) (g : Globals)
    (hnot : is_lit g.g_notification = 0)
    (hopen : env.openOk RGB_CONTROL_FILE = true)
    (hw : env.writeOk RGB_CONTROL_FILE = true) :
    (is_lit g.g_battery ≠ 0 →
      handle_speaker_battery_locked env g = [(RGB_CONTROL_FILE, "FFFFFF 1 0 0 0\n")]) ∧
    (is_lit g.g_battery = 0 →
      handle_speaker_battery_locked env g = [(RGB_CONTROL_FILE, "000000 0 0 0 0\n")]) := by
  constructor
  · intro hb
    unfold handle_speaker_battery_locked write_str
    simp [hnot, hb, hopen, hw]
  · intro hb
    unfold handle_speaker_battery_locked write_str
    simp [hnot, hb, hopen, hw]

/-- C6 amended witness: both branches exercised at concrete snapshots. -/
theorem C6_amended_battery_fallback_witness :
    (handle_speaker_battery_locked envOK ⟨zeroState, ⟨0x00FF0000, 0, 0, 0⟩⟩
      = [(RGB_CONTROL_FILE, "FFFFFF 1 0 0 0\n")]) ∧
    (handle_speaker_battery_locked envOK zeroGlobals
      = [(RGB_CONTROL_FILE, "000000 0 0 0 0\n")]) :=
  ⟨(C6_amended_battery_fallback envOK ⟨zeroState, ⟨0x00FF0000, 0, 0, 0⟩⟩
      (by decide) rfl rfl).1 (by decide),
   (C6_amended_battery_fallback envOK zeroGlobals
      (by decide) rfl rfl).2 (by decide)⟩

/-- C7: opening with any name other than the three recognized identifiers
returns `-EINVAL` and no device handle, while each recognized name yields
a handle bound to the matching setter. -/
theorem C7_open_lights_dispatch (name : String)
    (h1 : name ≠ LIGHT_ID_BACKLIGHT) (h2 : name ≠ LIGHT_ID_BATTERY)
    (h3 : name ≠ LIGHT_ID_NOTIFICATIONS) :
    open_lights name = Except.error (-EINVAL) ∧
    open_lights LIGHT_ID_BACKLIGHT = Except.ok Setter.backlight ∧
    open_lights LIGHT_ID_BATTERY = Except.ok Setter.battery ∧
    open_lights LIGHT_ID_NOTIFICATIONS = Except.ok Setter.notifications := by
  refine ⟨?_, rfl, rfl, rfl⟩
  unfold open_lights
  rw [if_neg h1, if_neg h2, if_neg h3]

/-- C7 witness at the unrecognized name "flashlight". -/
theorem C7_open_lights_dispatch_witness :
    open_lights "flashlight" = Except.error (-EINVAL) ∧
    open_lights LIGHT_ID_BACKLIGHT = Except.ok Setter.backlight ∧
    open_lights LIGHT_ID_BATTERY = Except.ok Setter.battery ∧
    open_lights LIGHT_ID_NOTIFICATIONS = Except.ok Setter.notifications :=
  C7_open_lights_dispatch "flashlight" (by decide) (by decide) (by decide)

/-- C8: calling the battery setter twice in succession with the same state
leaves the snapshots identical and produces the identical control-file
writes both times (the notification snapshot is untouched in between). -/
theorem C8_battery_idempotent (env : Env) (g : Globals) (s : light_state_t) :
    (set_light_battery env (set_light_battery env g s).2.1 s).2.2
      = (set_light_battery env g s).2.2 ∧
    (set_light_battery env (set_light_battery env g s).2.1 s).2.1
      = (set_light_battery env g s).2.1 :=
  ⟨rfl, rfl⟩

/-- C3: the backlight setter writes exactly the brightness
`(77*R + 150*G + 29*B) >> 8` over the 8-bit channels of the state to the
backlight control path, and the conversion maps 0xFFFFFFFF to 255 and
0x00000000 to 0. -/
theorem C3_backlight_luma (env : Env) (s : light_state_t)
    (hopen : env.openOk LCD_FILE = true) (hw : env.writeOk LCD_FILE = true) :
    set_light_backlight env s =
      (0, [(LCD_FILE,
        toString (Int.ofNat ((77 * (s.color / 65536 % 256)
          + 150 * (s.color / 256 % 256) + 29 * (s.color % 256)) / 256)) ++ "\n")]) ∧
    rgb_to_brightness ⟨0xFFFFFFFF, 0, 0, 0⟩ = 255 ∧
    rgb_to_brightness ⟨0x00000000, 0, 0, 0⟩ = 0 := by
  refine ⟨?_, by decide, by decide⟩
  unfold set_light_backlight write_int
  rw [rgb_to_brightness_spec]
  simp [hopen, hw]

/-- C3 witness at a concrete environment and the color 0x00345678. -/
theorem C3_backlight_luma_witness :
    set_light_backlight envOK ⟨0x00345678, 0, 0, 0⟩ =
      (0, [(LCD_FILE,
        toString (Int.ofNat ((77 * (0x00345678 / 65536 % 256)
          + 150 * (0x00345678 / 256 % 256) + 29 * (0x00345678 % 256)) / 256)) ++ "\n")]) ∧
    rgb_to_brightness ⟨0xFFFFFFFF, 0, 0, 0⟩ = 255 ∧
    rgb_to_brightness ⟨0x00000000, 0, 0, 0⟩ = 0 :=
  C3_backlight_luma envOK ⟨0x00345678, 0, 0, 0⟩ rfl rfl

/-- C9: two states that agree on the low 24 color bits and on all flash
fields (so they differ at most in the alpha byte) are indistinguishable
to `is_lit`, the brightness computation, the backlight setter, the blink
routine, and the arbitration output of both snapshot setters. -/
theorem C9_alpha_independence (env : Env) (g : Globals) (s t : light_state_t)
    (hc : s.color &&& 0xffffff = t.color &&& 0xffffff)
    (hm : s.flashMode = t.flashMode)
    (hon : s.flashOnMS = t.flashOnMS) (hoff : s.flashOffMS = t.flashOffMS) :
    is_lit s = is_lit t ∧
    rgb_to_brightness s = rgb_to_brightness t ∧
    set_light_backlight env s = set_light_backlight env t ∧
    set_speaker_light_locked env s = set_speaker_light_locked env t ∧
    (set_light_notifications env g s).2.2 = (set_light_notifications env g t).2.2 ∧
    (set_light_battery env g s).2.2 = (set_light_battery env g t).2.2 := by
  have hlit : is_lit s = is_lit t := hc
  have hbr : rgb_to_brightness s = rgb_to_brightness t := by
    unfold rgb_to_brightness
    rw [hc]
  have hcomm : 0xffffff &&& s.color = 0xffffff &&& t.color := by
    rw [Nat.and_comm, hc, Nat.and_comm]
  have hsp : set_speaker_light_locked env s = set_speaker_light_locked env t := by
    unfold set_speaker_light_locked
    rw [hcomm, hm, hon, hoff]
  refine ⟨hlit, hbr, ?_, hsp, ?_, ?_⟩
  · unfold set_light_backlight
    rw [hbr]
  · unfold set_light_notifications handle_speaker_battery_locked
    simp only
    rw [show is_lit s = is_lit t from hlit, hsp]
  · unfold set_light_battery handle_speaker_battery_locked
    simp only
    rw [show is_lit s = is_lit t from hlit]

/-- C9 witness: a pair differing only in the alpha byte. -/
theorem C9_alpha_independence_witness :
    is_lit ⟨0xFF123456, 1, 100, 200⟩ = is_lit ⟨0x00123456, 1, 100, 200⟩ ∧
    rgb_to_brightness ⟨0xFF123456, 1, 100, 200⟩
      = rgb_to_brightness ⟨0x00123456, 1, 100, 200⟩ ∧
    set_light_backlight envOK ⟨0xFF123456, 1, 100, 200⟩
      = set_light_backlight envOK ⟨0x00123456, 1, 100, 200⟩ ∧
    set_speaker_light_locked envOK ⟨0xFF123456, 1, 100, 200⟩
      = set_speaker_light_locked envOK ⟨0x00123456, 1, 100, 200⟩ ∧
    (set_light_notifications envOK zeroGlobals ⟨0xFF123456, 1, 100, 200⟩).2.2
      = (set_light_notifications envOK zeroGlobals ⟨0x00123456, 1, 100, 200⟩).2.2 ∧
    (set_light_battery envOK zeroGlobals ⟨0xFF123456, 1, 100, 200⟩).2.2
      = (set_light_battery envOK zeroGlobals ⟨0x00123456, 1, 100, 200⟩).2.2 :=
  C9_alpha_independence envOK zeroGlobals ⟨0xFF123456, 1, 100, 200⟩
    ⟨0x00123456, 1, 100, 200⟩ (by decide) rfl rfl rfl

/-- `sprintf %6x` renders the collapsed white color as `"ffffff"`. -/
lemma pad6_toHex_white : pad6 (toHex 0xFFFFFF) = "ffffff" := by decide

/-- Any string starting with the lowercase hex digits `"ffffff"` differs
from the uppercase battery fallback pattern. -/
lemma white_pattern_ne_battery (t : String) :
    "ffffff" ++ t ≠ "FFFFFF 1 0 0 0\n" := by
  intro h
  have h2 : ("ffffff" ++ t).data = ("FFFFFF 1 0 0 0\n").data := by rw [h]
  rw [String.data_append] at h2
  have h3 : (['f', 'f', 'f', 'f', 'f', 'f'] : List Char) ++ t.data
      = ['F', 'F', 'F', 'F', 'F', 'F', ' ', '1', ' ', '0', ' ', '0', ' ', '0', '\n'] := h2
  simp at h3

/-- C1: whenever the stored notification snapshot is lit, the arbitration
routine produces exactly the notification-derived blink writes, and none
of the bytes it writes is ever the battery fallback pattern, whatever the
battery snapshot holds. -/
theorem C1_notification_priority (env : Env) (g : Globals)
    (hlit : is_lit g.g_notification ≠ 0) :
    handle_speaker_battery_locked env g
      = (set_speaker_light_locked env g.g_notification).2 ∧
    ∀ w ∈ handle_speaker_battery_locked env g, w.2 ≠ "FFFFFF 1 0 0 0\n" := by
  have harb : handle_speaker_battery_locked env g
      = (set_speaker_light_locked env g.g_notification).2 := by
    unfold handle_speaker_battery_locked
    rw [if_pos hlit]
  refine ⟨harb, ?_⟩
  rw [harb]
  have hcomm : 0xffffff &&& g.g_notification.color ≠ 0 := by
    rw [Nat.and_comm]
    exact hlit
  unfold set_speaker_light_locked write_str
  by_cases ho : env.openOk RGB_CONTROL_FILE
  · by_cases hwr : env.writeOk RGB_CONTROL_FILE
    · simp only [ho, hwr, if_true, if_pos hcomm, List.mem_singleton, pad6_toHex_white]
      intro w hwmem
      subst hwmem
      simp only [String.append_assoc]
      exact white_pattern_ne_battery _
    · simp [ho, hwr]
  · simp [ho]

/-- C1 witness: lit notification together with a lit battery snapshot. -/
theorem C1_notification_priority_witness :
    (handle_speaker_battery_locked envOK
        ⟨⟨0x00FF0000, 1, 250, 500⟩, ⟨0x0000FF00, 0, 0, 0⟩⟩
      = (set_speaker_light_locked envOK ⟨0x00FF0000, 1, 250, 500⟩).2) ∧
    ∀ w ∈ handle_speaker_battery_locked envOK
        ⟨⟨0x00FF0000, 1, 250, 500⟩, ⟨0x0000FF00, 0, 0, 0⟩⟩,
      w.2 ≠ "FFFFFF 1 0 0 0\n" :=
  C1_notification_priority envOK
    ⟨⟨0x00FF0000, 1, 250, 500⟩, ⟨0x0000FF00, 0, 0, 0⟩⟩ (by decide)

/-- C5: a lit state makes the blink routine collapse the color to full
white and write `"<hex-color> <onMS> <offMS> <rampUp> <rampDown>"` with
the durations of the state and ramp 300 when the mode is TIMED, and all zeros
for NONE or any other mode, newline-terminated. -/
theorem C5_notification_blink_pattern (env : Env) (s : light_state_t)
    (hlit : s.color &&& 0xffffff ≠ 0)
    (hopen : env.openOk RGB_CONTROL_FILE = true)
    (hw : env.writeOk RGB_CONTROL_FILE = true) :
    set_speaker_light_locked env s =
      (0, [(RGB_CONTROL_FILE,
        "ffffff" ++ " "
          ++ toString (if s.flashMode = LIGHT_FLASH_TIMED then s.flashOnMS else 0) ++ " "
          ++ toString (if s.flashMode = LIGHT_FLASH_TIMED then s.flashOffMS else 0) ++ " "
          ++ toString (if s.flashMode = LIGHT_FLASH_TIMED then (300 : Int) else 0) ++ " "
          ++ toString (if s.flashMode = LIGHT_FLASH_TIMED then (300 : Int) else 0)
          ++ "\n")]) := by
  have hcomm : 0xffffff &&& s.color ≠ 0 := by
    rw [Nat.and_comm]
    exact hlit
  unfold set_speaker_light_locked write_str
  simp only [hopen, hw, if_true, if_pos hcomm, pad6_toHex_white]

/-- C5 witness: a TIMED red notification in a healthy environment. -/
theorem C5_notification_blink_pattern_witness :
    set_speaker_light_locked envOK ⟨0x00FF0000, 1, 250, 500⟩ =
      (0, [(RGB_CONTROL_FILE,
        "ffffff" ++ " "
          ++ toString (if (1 : Int) = LIGHT_FLASH_TIMED then (250 : Int) else 0) ++ " "
          ++ toString (if (1 : Int) = LIGHT_FLASH_TIMED then (500 : Int) else 0) ++ " "
          ++ toString (if (1 : Int) = LIGHT_FLASH_TIMED then (300 : Int) else 0) ++ " "
          ++ toString (if (1 : Int) = LIGHT_FLASH_TIMED then (300 : Int) else 0)
          ++ "\n")]) :=
  C5_notification_blink_pattern envOK ⟨0x00FF0000, 1, 250, 500⟩ (by decide) rfl rfl

end Lights
